import Mathlib

/-
Verification development for the YouTube_Scraper repository
(src/youtube_scraper.py and src/main.py).

The Python code is shallowly embedded: the upstream Google API client is a
record of pure functions, exceptions are an explicit `Except PyError`, and
dict lookups with `.get` become `Option` with `getD` defaults.
-/

/-- Python exception values that can arise in the embedded code:
`googleapiclient.errors.HttpError` (carrying `e.resp.status` and the decoded
`e.content`), `ValueError`, `TypeError`, and a catch-all for anything else. -/
inductive PyError where
  | httpError (status : Nat) (content : String)
  | valueError (msg : String)
  | typeError (msg : String)
  | otherError (msg : String)
deriving DecidableEq, Repr

/-- The message string produced for an exception caught by `fetch_data`:
the `except HttpError` branch formats status and content, the generic
`except Exception` branch uses `str(e)` (the exception message). -/
def fetchErrorMessage : PyError → String
  | .httpError status content => "An HTTP error " ++ toString status ++ " occurred: " ++ content
  | .valueError msg => msg
  | .typeError msg => msg
  | .otherError msg => msg

/- Embedding of `datetime.strptime(s, "%Y-%m-%dT%H:%M:%SZ")` followed by
`.isoformat()`, as used by `YoutubeScraper._parse_datetime`.  The CPython
module `_strptime` compiles the format to a regex (with IGNORECASE, so the literal
`T` and `Z` also match lowercase); `%Y` is exactly four digits, the other
fields one or two digits with the ranges below, the whole string must be
consumed, and the `datetime` constructor then rejects out-of-range dates
(day past end of month, second 60/61, year 0) with a `ValueError`. -/

def digitVal (c : Char) : Nat := c.toNat - 48

/-- Exactly four digits, as the CPython regex for `%Y`. -/
def parse4Digits : List Char → Option (Nat × List Char)
  | a :: b :: c :: d :: rest =>
    if a.isDigit && b.isDigit && c.isDigit && d.isDigit then
      some (((digitVal a * 10 + digitVal b) * 10 + digitVal c) * 10 + digitVal d, rest)
    else none
  | _ => none

/-- A one-or-two digit field: take two digits when the two-digit alternatives
of the regex accept them, else one digit when the one-digit alternative
accepts it.  (The literal separator that follows each field is never a digit,
so regex backtracking cannot change the outcome.) -/
def parseField (twoOk : Nat → Nat → Bool) (oneOk : Nat → Bool) :
    List Char → Option (Nat × List Char)
  | a :: b :: rest =>
    if a.isDigit && b.isDigit && twoOk (digitVal a) (digitVal b) then
      some (digitVal a * 10 + digitVal b, rest)
    else if a.isDigit && oneOk (digitVal a) then
      some (digitVal a, b :: rest)
    else none
  | [a] =>
    if a.isDigit && oneOk (digitVal a) then some (digitVal a, []) else none
  | [] => none

/-- Month field, regex alternatives 10-12, 01-09, single 1-9. -/
def parseMonthF : List Char → Option (Nat × List Char) :=
  parseField (fun a b => (a == 1 && b ≤ 2) || (a == 0 && 1 ≤ b)) (fun a => 1 ≤ a)

/-- Day field, regex alternatives 30-31, 10-29, 01-09, single 1-9. -/
def parseDayF : List Char → Option (Nat × List Char) :=
  parseField (fun a b => (a == 3 && b ≤ 1) || (a == 1 || a == 2) || (a == 0 && 1 ≤ b))
    (fun a => 1 ≤ a)

/-- Hour field, regex alternatives 20-23, 00-19, single digit. -/
def parseHourF : List Char → Option (Nat × List Char) :=
  parseField (fun a b => (a == 2 && b ≤ 3) || a ≤ 1) (fun _ => true)

/-- Minute field, regex alternatives 00-59, single digit. -/
def parseMinuteF : List Char → Option (Nat × List Char) :=
  parseField (fun a _ => a ≤ 5) (fun _ => true)

/-- Second field, regex alternatives 60-61 (leap seconds), 00-59, single digit. -/
def parseSecondF : List Char → Option (Nat × List Char) :=
  parseField (fun a b => (a == 6 && b ≤ 1) || a ≤ 5) (fun _ => true)

/-- A literal format character; strptime compiles with IGNORECASE. -/
def parseLit (c : Char) : List Char → Option (List Char)
  | x :: rest => if x.toLower == c.toLower then some rest else none
  | [] => none

structure PyDateTime where
  year : Nat
  month : Nat
  day : Nat
  hour : Nat
  minute : Nat
  second : Nat
deriving DecidableEq, Repr

def isLeapYear (y : Nat) : Bool :=
  y % 4 == 0 && (y % 100 != 0 || y % 400 == 0)

def daysInMonth (y m : Nat) : Nat :=
  if m == 2 then (if isLeapYear y then 29 else 28)
  else if m == 4 || m == 6 || m == 9 || m == 11 then 30
  else 31

/-- `datetime.strptime(s, "%Y-%m-%dT%H:%M:%SZ")`: `some` a datetime when the
parse succeeds, `none` when it raises `ValueError` (regex mismatch, trailing
characters, or constructor range check). -/
def strptimeYmdHmsZ (s : String) : Option PyDateTime := do
  let cs := s.toList
  let (y, cs) ← parse4Digits cs
  let cs ← parseLit '-' cs
  let (mo, cs) ← parseMonthF cs
  let cs ← parseLit '-' cs
  let (d, cs) ← parseDayF cs
  let cs ← parseLit 'T' cs
  let (h, cs) ← parseHourF cs
  let cs ← parseLit ':' cs
  let (mi, cs) ← parseMinuteF cs
  let cs ← parseLit ':' cs
  let (sec, cs) ← parseSecondF cs
  let cs ← parseLit 'Z' cs
  if cs.isEmpty && 1 ≤ y && d ≤ daysInMonth y mo && sec ≤ 59 then
    some ⟨y, mo, d, h, mi, sec⟩
  else none

def pad2 (n : Nat) : String :=
  if n < 10 then "0" ++ toString n else toString n

def pad4 (n : Nat) : String :=
  if n < 10 then "000" ++ toString n
  else if n < 100 then "00" ++ toString n
  else if n < 1000 then "0" ++ toString n
  else toString n

/-- `datetime.isoformat()` for a datetime with no timezone and zero
microseconds: `YYYY-MM-DDTHH:MM:SS`. -/
def PyDateTime.isoformat (dt : PyDateTime) : String :=
  pad4 dt.year ++ "-" ++ pad2 dt.month ++ "-" ++ pad2 dt.day ++ "T" ++
    pad2 dt.hour ++ ":" ++ pad2 dt.minute ++ ":" ++ pad2 dt.second

/-- `YoutubeScraper._parse_datetime` on a string argument: parse with
`strptime` and return `isoformat()`; on `ValueError` return the input
unchanged. -/
def parse_datetime (s : String) : String :=
  match strptimeYmdHmsZ s with
  | some dt => dt.isoformat
  | none => s

/-- `_parse_datetime` as called on `snippet.get(...)`: the argument may be
`None`, in which case `strptime` raises a `TypeError`, which the
`except ValueError` clause does not catch. -/
def parseDatetimeArg : Option String → Except PyError String
  | none => .error (.typeError "strptime() argument 1 must be str, not NoneType")
  | some s => .ok (parse_datetime s)

/- Upstream response shapes, as the fields the Python code reads.  A field
read with `dict.get` (which may be absent) is an `Option`; a field read with
`dict[...]` (whose absence would be a `KeyError` that never occurs on
well-formed API responses) is a plain field. -/

/-- The `id` object of a search result item: `kind` and `videoId`.  (`videoId` is only
read for items whose `kind` is `youtube#video`; for other kinds the field is a
dummy, unread value here.) -/
structure SearchItemId where
  kind : String
  videoId : String
deriving DecidableEq, Repr

structure SearchItem where
  id : SearchItemId
deriving DecidableEq, Repr

structure SearchResponse where
  items : List SearchItem
deriving DecidableEq, Repr

structure Thumb where
  url : Option String
deriving DecidableEq, Repr

structure Thumbnails where
  defaultThumb : Option Thumb
deriving DecidableEq, Repr

structure VSnippet where
  title : Option String
  description : Option String
  channelId : Option String
  channelTitle : Option String
  publishedAt : Option String
  thumbnails : Option Thumbnails
  tags : Option (List String)
deriving DecidableEq, Repr

/-- The empty dict that a `video_item.get` lookup of the `snippet` key defaults to. -/
def VSnippet.empty : VSnippet := ⟨none, none, none, none, none, none, none⟩

/-- Statistics counts; upstream serves decimal strings, so `int(...)` on a
present value is total and is modelled by carrying the numeral directly. -/
structure VStatistics where
  viewCount : Option Nat
  likeCount : Option Nat
  commentCount : Option Nat
deriving DecidableEq, Repr

def VStatistics.empty : VStatistics := ⟨none, none, none⟩

structure VContentDetails where
  duration : Option String
deriving DecidableEq, Repr

def VContentDetails.empty : VContentDetails := ⟨none⟩

structure VideoItem where
  id : Option String
  snippet : Option VSnippet
  statistics : Option VStatistics
  contentDetails : Option VContentDetails
deriving DecidableEq, Repr

/-- The watch-url f-string interpolates the `id` lookup; a Python f-string renders `None`
as the text `None`. -/
def pyFormatOpt : Option String → String
  | some s => s
  | none => "None"

/-- One entry of `signal_batch` as built by `_fetch_videos_by_search`. -/
structure VideoSignal where
  video_id : Option String
  video_title : Option String
  description : Option String
  channel_id : Option String
  channel_title : Option String
  published_at : String
  thumbnail_url : Option String
  url : String
  duration : Option String
  view_count : Nat
  like_count : Nat
  comment_count : Nat
  tags : List String
deriving DecidableEq, Repr

/-- Building one video dict inside the loop of `_fetch_videos_by_search`.
The only operation that can raise is `_parse_datetime` on a missing
`publishedAt` (a `TypeError` from `strptime`). -/
def buildVideoSignal (item : VideoItem) : Except PyError VideoSignal :=
  let snippet := item.snippet.getD VSnippet.empty
  let statistics := item.statistics.getD VStatistics.empty
  let content_details := item.contentDetails.getD VContentDetails.empty
  match parseDatetimeArg snippet.publishedAt with
  | .error e => .error e
  | .ok published =>
    .ok {
      video_id := item.id
      video_title := snippet.title
      description := snippet.description
      channel_id := snippet.channelId
      channel_title := snippet.channelTitle
      published_at := published
      thumbnail_url := ((snippet.thumbnails.getD ⟨none⟩).defaultThumb.getD ⟨none⟩).url
      url := "https://www.youtube.com/watch?v=" ++ pyFormatOpt item.id
      duration := content_details.duration
      view_count := statistics.viewCount.getD 0
      like_count := statistics.likeCount.getD 0
      comment_count := statistics.commentCount.getD 0
      tags := snippet.tags.getD [] }

/-- The `for video_item in ...` append loop: an exception on any item aborts
the whole batch (it is never appended to `self.results`). -/
def buildVideoSignals : List VideoItem → Except PyError (List VideoSignal)
  | [] => .ok []
  | item :: rest =>
    match buildVideoSignal item with
    | .error e => .error e
    | .ok sig =>
      match buildVideoSignals rest with
      | .error e => .error e
      | .ok sigs => .ok (sig :: sigs)

structure VideosResponse where
  items : List VideoItem
deriving DecidableEq, Repr

/-- The nested `snippet.topLevelComment.snippet` object of a comment thread item. -/
structure TLCSnippet where
  authorDisplayName : Option String
  authorProfileImageUrl : Option String
  authorChannelUrl : Option String
  textDisplay : Option String
  likeCount : Option Nat
  publishedAt : Option String
  updatedAt : Option String
deriving DecidableEq, Repr

structure TopLevelComment where
  id : String
  snippet : TLCSnippet
deriving DecidableEq, Repr

structure CTSnippet where
  topLevelComment : TopLevelComment
  totalReplyCount : Option Nat
deriving DecidableEq, Repr

structure CommentThreadItem where
  snippet : CTSnippet
deriving DecidableEq, Repr

/-- The upstream comment-threads response.  It carries a `nextPageToken`
pagination cursor when further pages exist; the Python code never reads it. -/
structure CommentThreadsResponse where
  items : List CommentThreadItem
  nextPageToken : Option String
deriving DecidableEq, Repr

/-- Shape of an entry of the (never-populated) `replies` list; the code that
would build these is commented out in the source. -/
structure ReplySignal where
  comment_id : String
  author_display_name : Option String
  text_display : Option String
  like_count : Nat
  published_at : String
deriving DecidableEq, Repr

/-- One `comment_data` dict as built by `_fetch_video_comments`. -/
structure CommentSignal where
  comment_id : String
  author_display_name : Option String
  author_profile_image_url : Option String
  author_channel_url : Option String
  text_display : Option String
  like_count : Nat
  published_at : String
  updated_at : String
  total_reply_count : Nat
  replies : List ReplySignal
deriving DecidableEq, Repr

/-- Building one `comment_data` dict.  `_parse_datetime` is applied to
`publishedAt` and `updatedAt`; either being absent raises a `TypeError`. -/
def buildCommentSignal (item : CommentThreadItem) : Except PyError CommentSignal :=
  let top_level_comment := item.snippet.topLevelComment.snippet
  match parseDatetimeArg top_level_comment.publishedAt with
  | .error e => .error e
  | .ok published =>
    match parseDatetimeArg top_level_comment.updatedAt with
    | .error e => .error e
    | .ok updated =>
      .ok {
        comment_id := item.snippet.topLevelComment.id
        author_display_name := top_level_comment.authorDisplayName
        author_profile_image_url := top_level_comment.authorProfileImageUrl
        author_channel_url := top_level_comment.authorChannelUrl
        text_display := top_level_comment.textDisplay
        like_count := top_level_comment.likeCount.getD 0
        published_at := published
        updated_at := updated
        total_reply_count := item.snippet.totalReplyCount.getD 0
        replies := [] }

/-- The `for item in ...` append loop of `_fetch_video_comments`. -/
def buildCommentSignals : List CommentThreadItem → Except PyError (List CommentSignal)
  | [] => .ok []
  | item :: rest =>
    match buildCommentSignal item with
    | .error e => .error e
    | .ok sig =>
      match buildCommentSignals rest with
      | .error e => .error e
      | .ok sigs => .ok (sig :: sigs)

/-- One `.execute()` round trip issued against the upstream API. -/
inductive APICall where
  | searchList (q : String) (maxResults : Nat)
  | videosList (ids : List String)
  | commentThreadsList (videoId : String) (maxResults : Nat) (pageToken : Option String)
deriving DecidableEq, Repr

/-- The upstream YouTube Data API, abstracted as deterministic responders.
`commentThreadsList` takes the page token parameter the endpoint supports;
the Python code never passes one (always `none`). -/
structure YoutubeAPI where
  searchList : String → Nat → Except PyError SearchResponse
  videosList : List String → Except PyError VideosResponse
  commentThreadsList : String → Nat → Option String → Except PyError CommentThreadsResponse

/-- One entry appended to `self.results`.  Every entry also carries
`platform: "YouTube"`; `commentsDisabled` and `fetchError` entries carry an
empty `signal_batch`; the constructor choice records the `source_type`
field (absent on `fetchError` entries). -/
inductive Batch where
  | search (source_name : String) (signal_batch : List VideoSignal)
  | comments (source_name : String) (video_id : String) (signal_batch : List CommentSignal)
  | commentsDisabled (source_name : String) (video_id : String) (error : String)
  | fetchError (source_name : String) (error : String)
deriving DecidableEq, Repr

/-- One entry of the `sources` list of the config dict. -/
structure Source where
  type : Option String
  query : Option String
  video_id : Option String
  max_results : Option Nat
deriving DecidableEq, Repr

/-- The config dict: key presence of `youtube_api_key`, and the `sources`
list read with `config.get("sources", [])`. -/
structure Config where
  youtube_api_key : Option String
  sources : Option (List Source)
deriving Repr

/-- `YoutubeScraper._fetch_videos_by_search`.  Returns the list of upstream
calls issued and either the list of batches appended to `self.results` or
the exception that escaped. -/
def fetchVideosBySearch (api : YoutubeAPI) (source : Source) :
    List APICall × Except PyError (List Batch) :=
  match source.query with
  | none => ([], .ok [])
  | some query =>
    if query = "" then ([], .ok [])
    else
      let max_results := source.max_results.getD 5
      match api.searchList query max_results with
      | .error e => ([.searchList query max_results], .error e)
      | .ok search_response =>
        let video_ids :=
          (search_response.items.filter (fun item => item.id.kind == "youtube#video")).map
            (fun item => item.id.videoId)
        if video_ids.isEmpty then
          ([.searchList query max_results], .ok [.search query []])
        else
          match api.videosList video_ids with
          | .error e => ([.searchList query max_results, .videosList video_ids], .error e)
          | .ok video_details_response =>
            match buildVideoSignals video_details_response.items with
            | .error e => ([.searchList query max_results, .videosList video_ids], .error e)
            | .ok signals =>
              ([.searchList query max_results, .videosList video_ids],
                .ok [.search query signals])

/-- `YoutubeScraper._fetch_video_comments`.  A 403 `HttpError` on the
comment-threads call is recovered into a zero-record entry with an
explanatory `error` field; every other exception escapes. -/
def fetchVideoComments (api : YoutubeAPI) (source : Source) :
    List APICall × Except PyError (List Batch) :=
  match source.video_id with
  | none => ([], .ok [])
  | some video_id =>
    if video_id = "" then ([], .ok [])
    else
      let max_results := source.max_results.getD 10
      match api.commentThreadsList video_id max_results none with
      | .error (.httpError status content) =>
        if status = 403 then
          ([.commentThreadsList video_id max_results none],
            .ok [.commentsDisabled ("video_id_" ++ video_id) video_id
              "Comments are disabled for this video."])
        else ([.commentThreadsList video_id max_results none],
          .error (.httpError status content))
      | .error e => ([.commentThreadsList video_id max_results none], .error e)
      | .ok comment_threads_response =>
        match buildCommentSignals comment_threads_response.items with
        | .error e => ([.commentThreadsList video_id max_results none], .error e)
        | .ok signals =>
          ([.commentThreadsList video_id max_results none],
            .ok [.comments ("video_id_" ++ video_id) video_id signals])

/-- `source.get("query") or source.get("video_id", "N/A")` of the error
handlers in `fetch_data` (Python `or` falls through on `None` and `""`). -/
def errorSourceName (source : Source) : String :=
  match source.query with
  | some q => if q = "" then source.video_id.getD "N/A" else q
  | none => source.video_id.getD "N/A"

/-- The `if source_type == ... elif ... else` dispatch in `fetch_data`;
an unsupported type only logs a warning. -/
def processSource (api : YoutubeAPI) (source : Source) :
    List APICall × Except PyError (List Batch) :=
  if source.type = some "search_videos" then fetchVideosBySearch api source
  else if source.type = some "video_comments" then fetchVideoComments api source
  else ([], .ok [])

/-- One iteration of the `for source in ...` loop of `fetch_data`: on an
exception (`HttpError` or any other) an error entry is appended instead. -/
def fetchStep (api : YoutubeAPI) (acc : List Batch × List APICall) (source : Source) :
    List Batch × List APICall :=
  match processSource api source with
  | (calls, .ok batches) => (acc.1 ++ batches, acc.2 ++ calls)
  | (calls, .error e) =>
    (acc.1 ++ [.fetchError (errorSourceName source) (fetchErrorMessage e)], acc.2 ++ calls)

/-- `YoutubeScraper.fetch_data`: the accumulated `self.results` (starting
from the `self.results = []` reset) and the upstream calls issued. -/
def fetch_data (api : YoutubeAPI) (config : Config) : List Batch × List APICall :=
  (config.sources.getD []).foldl (fetchStep api) ([], [])

/-- `fetch_data` as a method of a scraper instance whose `self.results`
currently holds `prevResults`: the method begins with `self.results = []`,
so the previous contents are discarded before the loop runs. -/
def fetchDataMethod (api : YoutubeAPI) (config : Config) (_prevResults : List Batch) :
    List Batch :=
  (fetch_data api config).1

/-- `YoutubeScraper.__init__`: raises `ValueError` when the key
`youtube_api_key` is absent from the config dict.  (The subsequent
the `build` service-construction call performs no network call and does not fail on
well-formed arguments; it is abstracted into the `YoutubeAPI` parameter.) -/
def scraperInit (config : Config) : Except PyError Unit :=
  if config.youtube_api_key.isSome then .ok ()
  else .error (.valueError "YouTube API key (\x27youtube_api_key\x27) not found in config.")

/-- The HTTP response produced by the FastAPI route: either the success JSON
body or an `HTTPException` with a status code and detail string. -/
inductive EndpointResponse where
  | success (platform : String) (data : List Batch)
  | httpException (status_code : Nat) (detail : String)
deriving DecidableEq, Repr

/-- `scrape_youtube_endpoint` in main.py: build the scraper, run
`fetch_data`, and map escaping exceptions to `HTTPException`s
(`ValueError` to 400, `HttpError` to the upstream status, anything else to
500).  Also returns the upstream calls issued while handling the request. -/
def scrape_youtube_endpoint (api : YoutubeAPI) (platform_config : Config) :
    EndpointResponse × List APICall :=
  match scraperInit platform_config with
  | .error (.valueError msg) => (.httpException 400 msg, [])
  | .error (.httpError status content) =>
    (.httpException status
      ("YouTube API error: " ++ (if content = "" then "No further details." else content)), [])
  | .error e =>
    (.httpException 500 ("Error during YouTube scraping: " ++ fetchErrorMessage e), [])
  | .ok _ =>
    let (data, calls) := fetch_data api platform_config
    (.success "YouTube" data, calls)

/- Spec-side definitions, for refinement comparisons.  These follow the
words of the specification, not the source: the source contains no duration
formatter and no pagination loop. -/

/-- Read a maximal nonempty run of digits. -/
def readNat (cs : List Char) : Option (Nat × List Char) :=
  let ds := cs.takeWhile Char.isDigit
  if ds.isEmpty then none
  else some (ds.foldl (fun n c => n * 10 + digitVal c) 0, cs.dropWhile Char.isDigit)

/-- Modelled from the spec: the valid shape `PT\x7bm\x7dM\x7bs\x7dS` of an
ISO-8601 duration as described for `format_duration`, which does not exist
in the source. -/
def parseDurationMS (s : String) : Option (Nat × Nat) :=
  match s.toList with
  | 'P' :: 'T' :: rest =>
    match readNat rest with
    | none => none
    | some (m, rest2) =>
      match rest2 with
      | 'M' :: rest3 =>
        match readNat rest3 with
        | none => none
        | some (sec, rest4) =>
          match rest4 with
          | ['S'] => some (m, sec)
          | _ => none
      | _ => none
  | _ => none

/-- Modelled from the spec: `format_duration` — for a valid duration of `m`
minutes and `s` seconds return the zero-padded `MM:SS` string, and for any
malformed input return the literal `00:00`.  No such helper exists in the
source. -/
def format_duration_spec (s : String) : String :=
  match parseDurationMS s with
  | some (m, sec) => pad2 m ++ ":" ++ pad2 sec
  | none => "00:00"

/-- Modelled from the spec: the paginated comment-fetch loop — request up to
`min(100, remaining)` items per call, follow the upstream pagination cursor,
stop once `maxResults` comments are collected or no further pages exist, and
report `has_more` true iff a cursor was still available when the collected
length reached `maxResults`.  The source performs no such loop; `fuel`
bounds the recursion. -/
def specFetchCommentsLoop (api : YoutubeAPI) (video_id : String) (maxResults : Nat) :
    Nat → Option String → List CommentThreadItem →
    Except PyError (List CommentThreadItem × Bool)
  | 0, _, acc => .ok (acc, false)
  | fuel + 1, token, acc =>
    match api.commentThreadsList video_id (min 100 (maxResults - acc.length)) token with
    | .error e => .error e
    | .ok resp =>
      let acc2 := acc ++ resp.items
      if maxResults ≤ acc2.length then
        .ok (acc2.take maxResults, resp.nextPageToken.isSome)
      else
        match resp.nextPageToken with
        | none => .ok (acc2, false)
        | some t => specFetchCommentsLoop api video_id maxResults fuel (some t) acc2

/-- Modelled from the spec: `fetchComments(video_id, maxResults)` pagination,
started with no cursor and nothing collected. -/
def specFetchComments (api : YoutubeAPI) (video_id : String) (maxResults fuel : Nat) :
    Except PyError (List CommentThreadItem × Bool) :=
  specFetchCommentsLoop api video_id maxResults fuel none []

/- Concrete upstream instances used to instantiate the theorems below. -/

/-- An upstream that answers every call with an empty, cursor-free result. -/
def emptyAPI : YoutubeAPI where
  searchList := fun _ _ => .ok ⟨[]⟩
  videosList := fun _ => .ok ⟨[]⟩
  commentThreadsList := fun _ _ _ => .ok ⟨[], none⟩

/-- A details item whose upstream duration is `PT4M13S`. -/
def c1Item : VideoItem where
  id := some "vid1"
  snippet := some { VSnippet.empty with
    title := some "A video", publishedAt := some "2023-10-26T14:00:00Z" }
  statistics := some ⟨some 7, some 2, some 1⟩
  contentDetails := some ⟨some "PT4M13S"⟩

/-- Upstream for the duration claim: one search hit, one details item. -/
def c1API : YoutubeAPI where
  searchList := fun _ _ => .ok ⟨[⟨⟨"youtube#video", "vid1"⟩⟩]⟩
  videosList := fun _ => .ok ⟨[c1Item]⟩
  commentThreadsList := fun _ _ _ => .ok ⟨[], none⟩

def c1Source : Source := ⟨some "search_videos", some "cats", none, some 5⟩

/-- The record the code builds from `c1Item`. -/
def c1Signal : VideoSignal where
  video_id := some "vid1"
  video_title := some "A video"
  description := none
  channel_id := none
  channel_title := none
  published_at := "2023-10-26T14:00:00"
  thumbnail_url := none
  url := "https://www.youtube.com/watch?v=vid1"
  duration := some "PT4M13S"
  view_count := 7
  like_count := 2
  comment_count := 1
  tags := []

/-- A well-formed upstream comment thread item. -/
def c2Item : CommentThreadItem where
  snippet :=
    { topLevelComment :=
        { id := "c1"
          snippet :=
            { authorDisplayName := some "alice"
              authorProfileImageUrl := none
              authorChannelUrl := none
              textDisplay := some "hi"
              likeCount := some 1
              publishedAt := some "2023-10-26T14:00:00Z"
              updatedAt := some "2023-10-26T14:00:00Z" } }
      totalReplyCount := some 0 }

/-- The record the code builds from `c2Item`. -/
def c2Signal : CommentSignal where
  comment_id := "c1"
  author_display_name := some "alice"
  author_profile_image_url := none
  author_channel_url := none
  text_display := some "hi"
  like_count := 1
  published_at := "2023-10-26T14:00:00"
  updated_at := "2023-10-26T14:00:00"
  total_reply_count := 0
  replies := []

/-- An upstream holding 250 comments for a video, served 100 + 100 + 50 over
three pages linked by cursors; further cursors do not exist. -/
def c2API : YoutubeAPI where
  searchList := fun _ _ => .ok ⟨[]⟩
  videosList := fun _ => .ok ⟨[]⟩
  commentThreadsList := fun _ _ token =>
    match token with
    | none => .ok ⟨List.replicate 100 c2Item, some "page2"⟩
    | some "page2" => .ok ⟨List.replicate 100 c2Item, some "page3"⟩
    | some "page3" => .ok ⟨List.replicate 50 c2Item, none⟩
    | some _ => .error (.httpError 404 "invalid page token")

def c2Source : Source := ⟨some "video_comments", none, some "abc123", some 250⟩

/-- An upstream denying comment access with a 403 on every thread call. -/
def c403API : YoutubeAPI where
  searchList := fun _ _ => .ok ⟨[]⟩
  videosList := fun _ => .ok ⟨[]⟩
  commentThreadsList := fun _ _ _ => .error (.httpError 403 "commentsDisabled")

def c403Source : Source := ⟨some "video_comments", none, some "disabled_vid", none⟩

/-- An upstream failing every comment-threads call with a 500. -/
def c3API : YoutubeAPI where
  searchList := fun _ _ => .ok ⟨[]⟩
  videosList := fun _ => .ok ⟨[]⟩
  commentThreadsList := fun _ _ _ => .error (.httpError 500 "backend error")

def c3Source : Source := ⟨some "video_comments", none, some "vidx", none⟩

def c3Config : Config := ⟨some "key", some [c3Source]⟩

/-- An upstream whose search finds only a non-video item, and whose details
endpoint would fail if it were ever called. -/
def c4API : YoutubeAPI where
  searchList := fun _ _ => .ok ⟨[⟨⟨"youtube#channel", "chan1"⟩⟩]⟩
  videosList := fun _ => .error (.otherError "details endpoint reached")
  commentThreadsList := fun _ _ _ => .ok ⟨[], none⟩

def c4Source : Source := ⟨some "search_videos", some "dogs", none, none⟩

/-- An upstream failing every search call with a 500. -/
def c5API : YoutubeAPI where
  searchList := fun _ _ => .error (.httpError 500 "quota exceeded")
  videosList := fun _ => .ok ⟨[]⟩
  commentThreadsList := fun _ _ _ => .ok ⟨[], none⟩

def c5Source : Source := ⟨some "search_videos", some "cats", none, none⟩

def c5Config : Config := ⟨some "key", some [c5Source]⟩

/-- A comment item with no `publishedAt`: building its record raises a
`TypeError` inside the loop. -/
def c5bItem : CommentThreadItem where
  snippet :=
    { topLevelComment :=
        { id := "c9"
          snippet :=
            { authorDisplayName := none
              authorProfileImageUrl := none
              authorChannelUrl := none
              textDisplay := none
              likeCount := none
              publishedAt := none
              updatedAt := none } }
      totalReplyCount := none }

def c5bAPI : YoutubeAPI where
  searchList := fun _ _ => .ok ⟨[]⟩
  videosList := fun _ => .ok ⟨[]⟩
  commentThreadsList := fun _ _ _ => .ok ⟨[c5bItem], none⟩

def c5bSource : Source := ⟨some "video_comments", none, some "v9", none⟩

def c5bConfig : Config := ⟨some "key", some [c5bSource]⟩

/-- A `search_videos` source with no `query` key at all. -/
def c6Source : Source := ⟨some "search_videos", none, none, none⟩

def c6Config : Config := ⟨some "key", some [c6Source]⟩

/-- An upstream serving a single comment thread. -/
def c7API : YoutubeAPI where
  searchList := fun _ _ => .ok ⟨[]⟩
  videosList := fun _ => .ok ⟨[]⟩
  commentThreadsList := fun _ _ _ => .ok ⟨[c2Item], none⟩

def c7Source : Source := ⟨some "video_comments", none, some "v7", none⟩

def c10Source : Source := ⟨some "channel_videos", none, none, none⟩

/-- Decidable equality for `Except`, so that concrete runs of the embedded
code can be checked by `decide`. -/
def Except.decEq {ε α : Type} [DecidableEq ε] [DecidableEq α] :
    (a b : Except ε α) → Decidable (a = b)
  | .error e1, .error e2 =>
    if h : e1 = e2 then isTrue (by rw [h]) else isFalse (fun hh => by cases hh; exact h rfl)
  | .error _, .ok _ => isFalse (fun hh => by cases hh)
  | .ok _, .error _ => isFalse (fun hh => by cases hh)
  | .ok a1, .ok a2 =>
    if h : a1 = a2 then isTrue (by rw [h]) else isFalse (fun hh => by cases hh; exact h rfl)

instance {ε α : Type} [DecidableEq ε] [DecidableEq α] : DecidableEq (Except ε α) :=
  Except.decEq

/- Helper lemmas shared by the claim theorems. -/

theorem buildCommentSignal_replies (item : CommentThreadItem) (sig : CommentSignal)
    (h : buildCommentSignal item = .ok sig) : sig.replies = [] := by
  unfold buildCommentSignal at h
  dsimp only at h
  cases hp : parseDatetimeArg item.snippet.topLevelComment.snippet.publishedAt with
  | error e => rw [hp] at h; cases h
  | ok published =>
    rw [hp] at h
    cases hu : parseDatetimeArg item.snippet.topLevelComment.snippet.updatedAt with
    | error e => rw [hu] at h; cases h
    | ok updated =>
      rw [hu] at h
      cases h
      rfl

theorem buildCommentSignals_replies (items : List CommentThreadItem)
    (sigs : List CommentSignal) (h : buildCommentSignals items = .ok sigs) :
    ∀ sig ∈ sigs, sig.replies = [] := by
  induction items generalizing sigs with
  | nil =>
    unfold buildCommentSignals at h
    cases h
    intro sig hs
    cases hs
  | cons item rest ih =>
    unfold buildCommentSignals at h
    cases h1 : buildCommentSignal item with
    | error e => rw [h1] at h; cases h
    | ok sig1 =>
      rw [h1] at h
      cases h2 : buildCommentSignals rest with
      | error e => rw [h2] at h; cases h
      | ok sigs1 =>
        rw [h2] at h
        cases h
        intro sig hs
        rcases List.mem_cons.mp hs with hh | hh
        · cases hh; exact buildCommentSignal_replies item sig1 h1
        · exact ih sigs1 h2 sig hh

/-- C1 amended: the `duration` field of every built video record is the
upstream `contentDetails.duration` string copied verbatim (raw ISO-8601
form), with no `MM:SS` formatting and no `00:00` fallback. -/
theorem C1_duration_raw (item : VideoItem) (sig : VideoSignal)
    (h : buildVideoSignal item = .ok sig) :
    sig.duration = (item.contentDetails.getD ⟨none⟩).duration := by
  unfold buildVideoSignal at h
  dsimp only at h
  cases hp : parseDatetimeArg (item.snippet.getD VSnippet.empty).publishedAt with
  | error e => rw [hp] at h; cases h
  | ok published =>
    rw [hp] at h
    cases h
    rfl

theorem C1_duration_raw_witness : c1Signal.duration = some "PT4M13S" :=
  C1_duration_raw c1Item c1Signal (by decide)

/-- C1 counterexample: for the concrete upstream `c1API` the code stores the
raw `PT4M13S` string, while the `format_duration` of the spec would give `04:13`. -/
theorem C1_counterexample :
    (fetchVideosBySearch c1API c1Source).2 = .ok [Batch.search "cats" [c1Signal]] ∧
    c1Signal.duration = some "PT4M13S" ∧
    format_duration_spec "PT4M13S" = "04:13" ∧
    (c1Signal.duration == some (format_duration_spec "PT4M13S")) = false :=
  ⟨by decide, by decide, by decide, by decide⟩

/-- C4 (confirmed): when the search response yields no video identifiers,
the operation appends one batch with zero video records and issues only the
search call, never the batched details call. -/
theorem C4_zero_ids (api : YoutubeAPI) (source : Source) (query : String)
    (resp : SearchResponse)
    (hq : source.query = some query) (hne : ¬ query = "")
    (hresp : api.searchList query (source.max_results.getD 5) = .ok resp)
    (hids : resp.items.filter (fun item => item.id.kind == "youtube#video") = []) :
    fetchVideosBySearch api source =
      ([APICall.searchList query (source.max_results.getD 5)],
        .ok [Batch.search query []]) := by
  unfold fetchVideosBySearch
  rw [hq]
  simp [hne, hresp, hids]

theorem C4_zero_ids_witness :
    fetchVideosBySearch c4API c4Source =
      ([APICall.searchList "dogs" 5], .ok [Batch.search "dogs" []]) :=
  C4_zero_ids c4API c4Source "dogs" ⟨[⟨⟨"youtube#channel", "chan1"⟩⟩]⟩ rfl
    (by decide) rfl (by decide)

/-- C2 amended: the comment-fetch operation issues exactly one upstream
comment-threads call, with `maxResults` equal to the requested limit and no
page token; the returned records are exactly the records built from that
single response, and the pagination cursor is never followed. -/
theorem C2_single_call (api : YoutubeAPI) (source : Source) (video_id : String)
    (resp : CommentThreadsResponse) (signals : List CommentSignal)
    (hv : source.video_id = some video_id) (hne : ¬ video_id = "")
    (hresp : api.commentThreadsList video_id (source.max_results.getD 10) none = .ok resp)
    (hsig : buildCommentSignals resp.items = .ok signals) :
    fetchVideoComments api source =
      ([APICall.commentThreadsList video_id (source.max_results.getD 10) none],
        .ok [Batch.comments ("video_id_" ++ video_id) video_id signals]) := by
  unfold fetchVideoComments
  rw [hv]
  simp [hne, hresp, hsig]

theorem C2_single_call_witness :
    fetchVideoComments c2API c2Source =
      ([APICall.commentThreadsList "abc123" 250 none],
        .ok [Batch.comments "video_id_abc123" "abc123" (List.replicate 100 c2Signal)]) :=
  C2_single_call c2API c2Source "abc123" ⟨List.replicate 100 c2Item, some "page2"⟩
    (List.replicate 100 c2Signal) rfl (by decide) rfl (by decide)

set_option maxRecDepth 10000 in
/-- C2 counterexample: against an upstream holding 250 comments over three
cursor-linked pages, a fetch with limit 250 returns only the 100 records of
the first page from a single upstream call — the cursor returned by that
call is never followed — whereas the pagination loop the claim describes
collects all 250 and reports `has_more = false`. -/
theorem C2_counterexample :
    fetchVideoComments c2API c2Source =
      ([APICall.commentThreadsList "abc123" 250 none],
        .ok [Batch.comments "video_id_abc123" "abc123" (List.replicate 100 c2Signal)]) ∧
    c2API.commentThreadsList "abc123" 250 none =
      .ok ⟨List.replicate 100 c2Item, some "page2"⟩ ∧
    specFetchComments c2API "abc123" 250 10 = .ok (List.replicate 250 c2Item, false) ∧
    (List.replicate 100 c2Signal).length = 100 ∧ 100 < 250 :=
  ⟨by decide, by decide, by decide, by decide, by decide⟩

/-- C3 amended: inside `_fetch_video_comments`, a 403 on the comment-threads
call is the one recovered condition — it yields a zero-record entry with an
explanatory note and no exception — while any other upstream status is
re-raised; but that re-raised error is then also recovered locally, by
`fetch_data`, which appends an error entry instead of propagating it. -/
theorem C3_comments_disabled (api : YoutubeAPI) (source : Source) (video_id : String)
    (hv : source.video_id = some video_id) (hne : ¬ video_id = "")
    (ht : source.type = some "video_comments") :
    (∀ content,
      api.commentThreadsList video_id (source.max_results.getD 10) none =
        .error (.httpError 403 content) →
      fetchVideoComments api source =
        ([APICall.commentThreadsList video_id (source.max_results.getD 10) none],
          .ok [Batch.commentsDisabled ("video_id_" ++ video_id) video_id
            "Comments are disabled for this video."])) ∧
    (∀ status content, ¬ status = 403 →
      api.commentThreadsList video_id (source.max_results.getD 10) none =
        .error (.httpError status content) →
      (fetchVideoComments api source).2 = .error (.httpError status content) ∧
      fetch_data api ⟨some "key", some [source]⟩ =
        ([Batch.fetchError (errorSourceName source)
            ("An HTTP error " ++ toString status ++ " occurred: " ++ content)],
          [APICall.commentThreadsList video_id (source.max_results.getD 10) none])) := by
  constructor
  · intro content hcall
    unfold fetchVideoComments
    rw [hv]
    simp [hne, hcall]
  · intro status content hst hcall
    have hfetch : fetchVideoComments api source =
        ([APICall.commentThreadsList video_id (source.max_results.getD 10) none],
          .error (.httpError status content)) := by
      unfold fetchVideoComments
      rw [hv]
      simp [hne, hcall, hst]
    constructor
    · rw [hfetch]
    · unfold fetch_data fetchStep processSource
      simp [ht, hfetch, fetchErrorMessage]

theorem C3_comments_disabled_witness :
    fetchVideoComments c403API c403Source =
      ([APICall.commentThreadsList "disabled_vid" 10 none],
        .ok [Batch.commentsDisabled "video_id_disabled_vid" "disabled_vid"
          "Comments are disabled for this video."]) ∧
    fetch_data c3API ⟨some "key", some [c3Source]⟩ =
      ([Batch.fetchError "vidx" "An HTTP error 500 occurred: backend error"],
        [APICall.commentThreadsList "vidx" 10 none]) :=
  ⟨(C3_comments_disabled c403API c403Source "disabled_vid" rfl (by decide) rfl).1
      "commentsDisabled" rfl,
    ((C3_comments_disabled c3API c3Source "vidx" rfl (by decide) rfl).2
      500 "backend error" (by decide) rfl).2⟩

/-- C3 counterexample: a 500 upstream error on the comment-threads call —
not the comments-disabled 403 — is also recovered locally: `fetch_data`
returns normally, carrying a zero-record error entry for that source, so the
403 case is not the only locally recovered upstream-error condition. -/
theorem C3_counterexample :
    fetch_data c3API c3Config =
      ([Batch.fetchError "vidx" "An HTTP error 500 occurred: backend error"],
        [APICall.commentThreadsList "vidx" 10 none]) ∧
    scrape_youtube_endpoint c3API c3Config =
      (.success "YouTube"
        [Batch.fetchError "vidx" "An HTTP error 500 occurred: backend error"],
        [APICall.commentThreadsList "vidx" 10 none]) :=
  ⟨by decide, by decide⟩

/-- C5 amended: an upstream error inside a source fetch never propagates out
of `fetch_data`: it is converted into an error entry appended to the results
list, and the request-router boundary returns a success response containing
that entry.  Only initialization failures (such as a missing API key) reach
the exception handlers of the router. -/
theorem C5_errors_recovered (api : YoutubeAPI) (config : Config) (source : Source)
    (calls : List APICall) (e : PyError)
    (hk : config.youtube_api_key.isSome = true)
    (hs : config.sources = some [source])
    (hp : processSource api source = (calls, .error e)) :
    scrape_youtube_endpoint api config =
      (.success "YouTube"
        [Batch.fetchError (errorSourceName source) (fetchErrorMessage e)], calls) := by
  unfold scrape_youtube_endpoint scraperInit
  rw [hk]
  unfold fetch_data fetchStep
  simp [hs, hp]

theorem C5_errors_recovered_witness :
    scrape_youtube_endpoint c5bAPI c5bConfig =
      (.success "YouTube"
        [Batch.fetchError "v9" "strptime() argument 1 must be str, not NoneType"],
        [APICall.commentThreadsList "v9" 10 none]) :=
  C5_errors_recovered c5bAPI c5bConfig c5bSource
    [APICall.commentThreadsList "v9" 10 none]
    (.typeError "strptime() argument 1 must be str, not NoneType") rfl rfl (by decide)

/-- C5 counterexample: a 500 upstream error on the search call does not
propagate to the router as a structured HTTP error carrying the upstream
status: the endpoint answers with a success response whose data embeds the
error text, because `fetch_data` already caught the exception. -/
theorem C5_counterexample :
    scrape_youtube_endpoint c5API c5Config =
      (.success "YouTube"
        [Batch.fetchError "cats" "An HTTP error 500 occurred: quota exceeded"],
        [APICall.searchList "cats" 5]) :=
  by decide

/-- C6 amended: a request whose config lacks the API key is answered with a
400 validation error carrying a human-readable message and no upstream call
is attempted; but a `search_videos` source with a missing (or empty) search
query is skipped silently — no upstream call, no appended entry, and a
success response rather than a 4xx validation error. -/
theorem C6_validation (api : YoutubeAPI) (config : Config) :
    (config.youtube_api_key = none →
      scrape_youtube_endpoint api config =
        (.httpException 400
          "YouTube API key (\x27youtube_api_key\x27) not found in config.", [])) ∧
    (∀ source, (source.query = none ∨ source.query = some "") →
      config.youtube_api_key.isSome = true →
      config.sources = some [source] →
      source.type = some "search_videos" →
      scrape_youtube_endpoint api config = (.success "YouTube" [], [])) := by
  constructor
  · intro hk
    unfold scrape_youtube_endpoint scraperInit
    rw [hk]
    simp
  · intro source hq hk hs ht
    have hfetch : fetchVideosBySearch api source = ([], .ok []) := by
      unfold fetchVideosBySearch
      rcases hq with hq | hq
      · rw [hq]
      · rw [hq]
        simp
    unfold scrape_youtube_endpoint scraperInit
    rw [hk]
    unfold fetch_data fetchStep processSource
    simp [hs, ht, hfetch]

theorem C6_validation_witness :
    scrape_youtube_endpoint emptyAPI ⟨none, some []⟩ =
      (.httpException 400
        "YouTube API key (\x27youtube_api_key\x27) not found in config.", []) ∧
    scrape_youtube_endpoint emptyAPI c6Config = (.success "YouTube" [], []) :=
  ⟨(C6_validation emptyAPI ⟨none, some []⟩).1 rfl,
    (C6_validation emptyAPI c6Config).2 c6Source (Or.inl rfl) rfl rfl rfl⟩

/-- C6 counterexample: a request with an API key but a `search_videos`
source whose query is absent is answered with HTTP success and an empty
result list — not with a 4xx validation error. -/
theorem C6_counterexample :
    scrape_youtube_endpoint emptyAPI c6Config = (.success "YouTube" [], []) :=
  by decide

/-- C7 (confirmed): every comment record produced by the comment-fetch
operation has an empty `replies` collection — replies are never fetched. -/
theorem C7_no_replies (api : YoutubeAPI) (source : Source)
    (calls : List APICall) (batches : List Batch)
    (h : fetchVideoComments api source = (calls, .ok batches))
    (source_name video_id : String) (signals : List CommentSignal)
    (hb : Batch.comments source_name video_id signals ∈ batches)
    (sig : CommentSignal) (hs : sig ∈ signals) :
    sig.replies = [] := by
  unfold fetchVideoComments at h
  cases hv : source.video_id with
  | none =>
    rw [hv] at h
    cases h
    cases hb
  | some vid =>
    rw [hv] at h
    dsimp only at h
    by_cases hne : vid = ""
    · rw [if_pos hne] at h
      cases h
      cases hb
    · rw [if_neg hne] at h
      cases hcall : api.commentThreadsList vid (source.max_results.getD 10) none with
      | error e =>
        rw [hcall] at h
        cases e with
        | httpError status content =>
          dsimp only at h
          by_cases hst : status = 403
          · rw [if_pos hst] at h
            cases h
            rcases List.mem_singleton.mp hb with hh
            cases hh
          · rw [if_neg hst] at h
            cases h
        | valueError msg => cases h
        | typeError msg => cases h
        | otherError msg => cases h
      | ok resp =>
        rw [hcall] at h
        dsimp only at h
        cases hbuild : buildCommentSignals resp.items with
        | error e => rw [hbuild] at h; cases h
        | ok sigs =>
          rw [hbuild] at h
          cases h
          rcases List.mem_singleton.mp hb with hh
          cases hh
          exact buildCommentSignals_replies resp.items signals hbuild sig hs

theorem C7_no_replies_witness : c2Signal.replies = [] :=
  C7_no_replies c7API c7Source [APICall.commentThreadsList "v7" 10 none]
    [Batch.comments "video_id_v7" "v7" [c2Signal]] (by decide)
    "video_id_v7" "v7" [c2Signal] (by decide) c2Signal (by decide)

/-- C8 (confirmed): `fetch_data` clears `self.results` on entry, so its
output does not depend on results accumulated by earlier calls, and against
the same deterministic upstream a repeated identical request yields the
identical batch sequence. -/
theorem C8_idempotent (api : YoutubeAPI) (config : Config) (prev1 prev2 : List Batch) :
    fetchDataMethod api config prev1 = fetchDataMethod api config prev2 ∧
    fetchDataMethod api config (fetchDataMethod api config prev1) =
      fetchDataMethod api config prev1 :=
  ⟨rfl, rfl⟩

/-- C9 (confirmed): `_parse_datetime` is total on strings: an input accepted
by `strptime` with format `%Y-%m-%dT%H:%M:%SZ` is returned as the parsed
`isoformat()` of the parsed datetime, and every other input is returned unchanged. -/
theorem C9_parse_datetime_total (s : String) :
    (∀ dt, strptimeYmdHmsZ s = some dt → parse_datetime s = dt.isoformat) ∧
    (strptimeYmdHmsZ s = none → parse_datetime s = s) := by
  constructor
  · intro dt h
    unfold parse_datetime
    rw [h]
  · intro h
    unfold parse_datetime
    rw [h]

theorem C9_parse_datetime_total_witness :
    parse_datetime "2023-10-26T14:00:00Z" = "2023-10-26T14:00:00" ∧
    parse_datetime "not-a-date" = "not-a-date" :=
  ⟨(C9_parse_datetime_total "2023-10-26T14:00:00Z").1 ⟨2023, 10, 26, 14, 0, 0⟩ (by decide),
    (C9_parse_datetime_total "not-a-date").2 (by decide)⟩

/-- C10 (confirmed): a source whose type is neither `search_videos` nor
`video_comments` contributes nothing: no appended entry, no upstream call,
no exception, and the remaining sources are processed exactly as if the
unsupported source were absent. -/
theorem C10_unsupported_type (api : YoutubeAPI) (key : Option String)
    (pre post : List Source) (source : Source)
    (h1 : ¬ source.type = some "search_videos")
    (h2 : ¬ source.type = some "video_comments") :
    fetch_data api ⟨key, some (pre ++ source :: post)⟩ =
      fetch_data api ⟨key, some (pre ++ post)⟩ := by
  have hstep : ∀ acc, fetchStep api acc source = acc := by
    intro acc
    unfold fetchStep processSource
    simp [h1, h2]
  unfold fetch_data
  simp only [Option.getD_some, List.foldl_append, List.foldl_cons, hstep]

theorem C10_unsupported_type_witness :
    fetch_data emptyAPI ⟨some "key", some [c10Source]⟩ =
      fetch_data emptyAPI ⟨some "key", some []⟩ :=
  C10_unsupported_type emptyAPI (some "key") [] [] c10Source (by decide) (by decide)
